import Mathlib

/-!
# The `lico_set_cap` launcher (`bin/lico_set_cap.go`)

A shallow embedding of the Go program `bin/lico_set_cap.go` and the properties of
its single function `main`.

Modelling decisions.

* Go strings are embedded as Lean `String`s; the program only concatenates them.
* `os.Args` is the parameter `args : List String`.
* The operating system is the parameter `os : Cmd → ChildOutcome`: what happens to a
  child process when the command is run.
* One run of `main` is summarised by an `Execution`: what `main` itself wrote to
  standard output, the messages it handed to the standard logger, the commands it
  ran, and how the process ended.  Output of the child goes straight to the
  inherited streams and is not part of the record.
* Exit statuses are the integers passed to `os.Exit`; the truncation the operating
  system applies to them (for example `-1` seen as `255`) is not modelled.
* `exec.Command` is recorded by its two arguments.  The `PATH` lookup it performs
  for a name without a path separator is not modelled.
-/

namespace LicoSetCap

/-! ## Formatting -/

/-- Formatting of a format string (as characters) with string operands, for the
fragment of Go's `fmt` that the program uses: ordinary characters, the verb `%s`
applied to a string (or to an error, through its text) and `%%`.  The result is
`none` outside that fragment: other verbs or flags, a missing operand, or operands
left over. -/
def formatChars : List Char → List String → Option (List Char)
  | [], [] => some []
  | [], _ :: _ => none
  | '%' :: 's' :: rest, a :: operands => (formatChars rest operands).map (a.data ++ ·)
  | '%' :: '%' :: rest, operands => (formatChars rest operands).map ('%' :: ·)
  | '%' :: _, _ => none
  | c :: rest, operands => (formatChars rest operands).map (c :: ·)

/-- Go's `fmt.Sprintf` on the fragment of `formatChars`. -/
def Sprintf (format : String) (a : List String) : Option String :=
  (formatChars format.data a).map String.mk

/-- The constant `usage` (a raw string literal; it starts with a line break). -/
def usage : String :=
  "\nUsage:\n    %s python_path module_path [options]\n\n    python_path: Should specify an absolute path for python interpreter.\n    module_path: Should specify the module path.\n    options: Options for the specified module, refer to the module help.\n\nExample:\n    %s /usr/bin/python3 base.cpu.lico_check_cpu --util\n"

/-! ## Processes -/

/-- The two arguments of a call `exec.Command(name, arg...)`. -/
structure Cmd where
  name : String
  arg : List String
  deriving DecidableEq, Repr

/-- What happens to a child process: it could not be started (with the text of
the operating-system error), it ran and exited with a status, or it was ended by
a signal. -/
inductive ChildOutcome where
  | notStarted (reason : String)
  | exited (status : Nat)
  | signaled (signal : String)
  deriving DecidableEq, Repr

/-- The method `cmd.Run()`: `none` is Go's `nil` (the child ran and exited with
status 0); otherwise the text of the returned error, as `%s` prints it. -/
def Run (os : Cmd → ChildOutcome) (cmd : Cmd) : Option String :=
  match os cmd with
  | .notStarted reason => some reason
  | .exited 0 => none
  | .exited (n + 1) => some ("exit status " ++ toString (n + 1))
  | .signaled signal => some ("signal: " ++ signal)

/-- How a run of the program ends. -/
inductive Termination where
  /-- A run-time failure "index out of range" or "slice bounds out of range". -/
  | indexPanic
  /-- A call `os.Exit(code)`, directly or at the end of `log.Fatalf`. -/
  | osExit (code : Int)
  /-- The function `main` returned. -/
  | returned
  /-- A call of `fmt` outside the fragment of `formatChars`. -/
  | outsideModel
  deriving DecidableEq, Repr

/-- The exit status of the process: 0 when `main` returns, the argument of
`os.Exit`, and 2 for a run-time failure of Go; no status outside the model. -/
def exitStatus : Termination → Option Int
  | .indexPanic => some 2
  | .osExit code => some code
  | .returned => some 0
  | .outsideModel => none

/-- The record of one run of `main`. -/
structure Execution where
  /-- The texts `main` printed to standard output. -/
  stdout : List String
  /-- The messages `main` handed to the standard logger (the logger puts a time
  stamp in front of each and writes it to standard error). -/
  logged : List String
  /-- The commands `main` ran. -/
  spawned : List Cmd
  /-- How the process ended. -/
  term : Termination
  deriving DecidableEq, Repr

/-- The slice expression `s[low:]`: it fails when `low` exceeds the length. -/
def sliceFrom (s : List String) (low : Nat) : Option (List String) :=
  if low ≤ s.length then some (s.drop low) else none

/-! ## The program -/

/-- The function `main`, on the argument list `args` (Go's `os.Args`) and the
operating system `os`. -/
def main (os : Cmd → ChildOutcome) (args : List String) : Execution :=
  match args[0]? with
  | none => ⟨[], [], [], .indexPanic⟩
  | some prog =>
    if args.length < 3 then
      -- fmt.Printf(usage, prog, prog); os.Exit(-1)
      match Sprintf usage [prog, prog] with
      | none => ⟨[], [], [], .outsideModel⟩
      | some text => ⟨[text], [], [], .osExit (-1)⟩
    else
      match args[2]? with
      | none => ⟨[], [], [], .indexPanic⟩
      | some module =>
        match sliceFrom args 3 with
        | none => ⟨[], [], [], .indexPanic⟩
        | some extra =>
          -- opts starts as the two fixed elements; the loop over args[3:] appends each elem
          let opts := extra.foldl (fun opts elem => opts ++ [elem])
            ["-m", "lico.monitor.plugins.icinga." ++ module]
          match args[1]? with
          | none => ⟨[], [], [], .indexPanic⟩
          | some name =>
            let cmd : Cmd := ⟨name, opts⟩
            match Run os cmd with
            | none => ⟨[], [], [cmd], .returned⟩
            | some err =>
              -- log.Fatalf("cmd.Run() failed with %s\n", err): log, then os.Exit(1)
              match Sprintf "cmd.Run() failed with %s\n" [err] with
              | none => ⟨[], [], [cmd], .outsideModel⟩
              | some msg => ⟨[], [msg], [cmd], .osExit 1⟩

/-! ## The three ways a run can end -/

/-- The usage exit: the usage text on standard output, status -1, nothing run. -/
def Execution.isUsageExit (e : Execution) : Prop :=
  e.term = .osExit (-1) ∧ e.stdout.length = 1 ∧ e.logged = [] ∧ e.spawned = []

/-- The fatal exit: one diagnostic logged, status 1, nothing on standard output. -/
def Execution.isFatalExit (e : Execution) : Prop :=
  e.term = .osExit 1 ∧ e.logged.length = 1 ∧ e.stdout = [] ∧ e.spawned.length = 1

/-- The normal exit: `main` returned, having printed and logged nothing. -/
def Execution.isNormalExit (e : Execution) : Prop :=
  e.term = .returned ∧ e.logged = [] ∧ e.stdout = [] ∧ e.spawned.length = 1

/-! ## Lemmas on the model -/

theorem foldl_append_singleton (extra init : List String) :
    extra.foldl (fun opts elem => opts ++ [elem]) init = init ++ extra := by
  induction extra generalizing init with
  | nil => simp
  | cons x xs ih => simp [ih]

set_option maxRecDepth 100000 in
theorem Sprintf_usage (prog : String) :
    Sprintf usage [prog, prog] = some
      ("\nUsage:\n    " ++ prog ++ " python_path module_path [options]\n\n    python_path: Should specify an absolute path for python interpreter.\n    module_path: Should specify the module path.\n    options: Options for the specified module, refer to the module help.\n\nExample:\n    " ++ prog ++ " /usr/bin/python3 base.cpu.lico_check_cpu --util\n") := by
  have h : Sprintf usage [prog, prog] = some
      ("\nUsage:\n    " ++ (prog ++ (" python_path module_path [options]\n\n    python_path: Should specify an absolute path for python interpreter.\n    module_path: Should specify the module path.\n    options: Options for the specified module, refer to the module help.\n\nExample:\n    " ++ (prog ++ " /usr/bin/python3 base.cpu.lico_check_cpu --util\n")))) := by
    rfl
  rw [h]
  simp only [String.append_assoc]

theorem Sprintf_fatal (err : String) :
    Sprintf "cmd.Run() failed with %s\n" [err]
      = some ("cmd.Run() failed with " ++ err ++ "\n") := by
  rfl

/-- On a list that holds only the program name and at most one more element,
`main` prints the usage text and exits with -1. -/
theorem main_short (os : Cmd → ChildOutcome) (prog : String) (rest : List String)
    (h : rest.length < 2) :
    ∃ text, Sprintf usage [prog, prog] = some text ∧
      main os (prog :: rest) = ⟨[text], [], [], .osExit (-1)⟩ := by
  refine ⟨_, Sprintf_usage prog, ?_⟩
  have h3 : (prog :: rest).length < 3 := by simp; omega
  simp only [main, List.getElem?_cons_zero, h3, if_true, Sprintf_usage]

/-- On a list with three or more elements, `main` runs one command and ends
according to the result of `cmd.Run()`. -/
theorem main_long (os : Cmd → ChildOutcome) (prog name module : String)
    (extra : List String) :
    main os (prog :: name :: module :: extra) =
      match Run os ⟨name, "-m" :: ("lico.monitor.plugins.icinga." ++ module) :: extra⟩ with
      | none =>
        ⟨[], [], [⟨name, "-m" :: ("lico.monitor.plugins.icinga." ++ module) :: extra⟩],
          .returned⟩
      | some err =>
        ⟨[], ["cmd.Run() failed with " ++ err ++ "\n"],
          [⟨name, "-m" :: ("lico.monitor.plugins.icinga." ++ module) :: extra⟩], .osExit 1⟩ := by
  simp [main, sliceFrom, foldl_append_singleton, Sprintf_fatal]

/-- The command `main` runs does not depend on the operating system. -/
theorem main_spawned (os : Cmd → ChildOutcome) (prog name module : String)
    (extra : List String) :
    (main os (prog :: name :: module :: extra)).spawned =
      [⟨name, "-m" :: ("lico.monitor.plugins.icinga." ++ module) :: extra⟩] := by
  rw [main_long]
  cases Run os ⟨name, "-m" :: ("lico.monitor.plugins.icinga." ++ module) :: extra⟩ <;> rfl

/-- On the empty argument list `main` fails at `args[0]`. -/
theorem main_nil (os : Cmd → ChildOutcome) :
    main os [] = ⟨[], [], [], .indexPanic⟩ := by
  rfl

/-- A list with three or more elements starts with three elements. -/
theorem exists_cons3 (args : List String) (h : 3 ≤ args.length) :
    ∃ prog name module extra, args = prog :: name :: module :: extra := by
  match args, h with
  | prog :: name :: module :: extra, _ => exact ⟨prog, name, module, extra, rfl⟩

/-- A non-empty list with fewer than three elements is a head and a short tail. -/
theorem exists_cons_short (args : List String) (h0 : 0 < args.length)
    (h : args.length < 3) : ∃ prog rest, args = prog :: rest ∧ rest.length < 2 := by
  match args, h0, h with
  | prog :: rest, _, h => exact ⟨prog, rest, rfl, by simp only [List.length_cons] at h; omega⟩

/-- Appending to a fixed string is injective. -/
theorem string_append_left_cancel (p a b : String) (h : p ++ a = p ++ b) : a = b := by
  have hd : (p ++ a).data = (p ++ b).data := by rw [h]
  simp only [String.data_append] at hd
  exact String.ext (List.append_cancel_left hd)

/-! ## The argument vector and the executable (C1, C6, C10) -/

/-- C1: for every argument list with three or more elements, the argument vector
of the one command `main` runs is `["-m", "lico.monitor.plugins.icinga." + args[2]]`
followed by `args[3:]`, unchanged and in order; its length is `len(args) - 1`. -/
theorem main_child_argv (os : Cmd → ChildOutcome) (args : List String)
    (h : 3 ≤ args.length) :
    (main os args).spawned.map Cmd.arg
        = [["-m", "lico.monitor.plugins.icinga." ++ args[2]] ++ args.drop 3]
      ∧ ∀ cmd ∈ (main os args).spawned, cmd.arg.length = args.length - 1 := by
  obtain ⟨prog, name, module, extra, rfl⟩ := exists_cons3 args h
  simp [main_spawned]

theorem main_child_argv_witness :
    3 ≤ ["prog", "/usr/bin/python3", "base.cpu.lico_check_cpu", "--util"].length ∧
    (main (fun _ => ChildOutcome.exited 0)
        ["prog", "/usr/bin/python3", "base.cpu.lico_check_cpu", "--util"]).spawned.map Cmd.arg
      = [["-m", "lico.monitor.plugins.icinga.base.cpu.lico_check_cpu", "--util"]] :=
  ⟨by decide, (main_child_argv _ _ (by decide)).1⟩

/-- C6: for every argument list with three or more elements, the executable of the
one command `main` runs is `args[1]`, unchanged, whatever the other arguments. -/
theorem main_executable (os : Cmd → ChildOutcome) (args : List String)
    (h : 3 ≤ args.length) :
    (main os args).spawned.map Cmd.name = [args[1]] := by
  obtain ⟨prog, name, module, extra, rfl⟩ := exists_cons3 args h
  simp [main_spawned]

theorem main_executable_witness :
    3 ≤ ["prog", "/usr/bin/python3", "base.cpu.lico_check_cpu", "--util"].length ∧
    (main (fun _ => ChildOutcome.exited 0)
        ["prog", "/usr/bin/python3", "base.cpu.lico_check_cpu", "--util"]).spawned.map Cmd.name
      = ["/usr/bin/python3"] :=
  ⟨by decide, main_executable _ _ (by decide)⟩

/-- C10: the rewriting is injective.  For two argument lists with three or more
elements, if `main` runs the same command (same executable, same argument vector)
for both, then the lists agree from index 1 on: `a[1:] = b[1:]`. -/
theorem main_rewriting_injective (os₁ os₂ : Cmd → ChildOutcome) (a b : List String)
    (ha : 3 ≤ a.length) (hb : 3 ≤ b.length)
    (h : (main os₁ a).spawned = (main os₂ b).spawned) :
    a.drop 1 = b.drop 1 := by
  obtain ⟨pa, na, ma, ea, rfl⟩ := exists_cons3 a ha
  obtain ⟨pb, nb, mb, eb, rfl⟩ := exists_cons3 b hb
  rw [main_spawned, main_spawned] at h
  simp only [List.cons.injEq, Cmd.mk.injEq, and_true, true_and] at h
  obtain ⟨hn, hm, he⟩ := h
  have hm2 : ma = mb := string_append_left_cancel _ _ _ hm
  simp [hn, hm2, he]

theorem main_rewriting_injective_witness :
    3 ≤ ["check", "/usr/bin/python3", "base.cpu.lico_check_cpu", "--util"].length ∧
    3 ≤ ["lico_set_cap", "/usr/bin/python3", "base.cpu.lico_check_cpu", "--util"].length ∧
    (main (fun _ => ChildOutcome.exited 0)
        ["check", "/usr/bin/python3", "base.cpu.lico_check_cpu", "--util"]).spawned
      = (main (fun _ => ChildOutcome.exited 2)
        ["lico_set_cap", "/usr/bin/python3", "base.cpu.lico_check_cpu", "--util"]).spawned ∧
    ["check", "/usr/bin/python3", "base.cpu.lico_check_cpu", "--util"].drop 1
      = ["lico_set_cap", "/usr/bin/python3", "base.cpu.lico_check_cpu", "--util"].drop 1 :=
  ⟨by decide, by decide, by simp [main_spawned],
    main_rewriting_injective (fun _ => ChildOutcome.exited 0) (fun _ => ChildOutcome.exited 2)
      _ _ (by decide) (by decide) (by simp [main_spawned])⟩

/-! ## The usage exit (C2, C7) -/

/-- C2: for every argument list that holds the program name and has fewer than
three elements, `main` prints the usage text (the constant `usage` formatted with
the program name twice) to standard output, ends with `os.Exit(-1)`, logs nothing
and runs no command. -/
theorem main_usage_exit (os : Cmd → ChildOutcome) (args : List String)
    (h0 : 0 < args.length) (h : args.length < 3) :
    (∃ text, Sprintf usage [args[0], args[0]] = some text ∧ (main os args).stdout = [text])
      ∧ (main os args).term = .osExit (-1)
      ∧ exitStatus (main os args).term = some (-1)
      ∧ (main os args).spawned = []
      ∧ (main os args).logged = [] := by
  obtain ⟨prog, rest, rfl, hr⟩ := exists_cons_short args h0 h
  obtain ⟨text, ht, hm⟩ := main_short os prog rest hr
  rw [hm]
  exact ⟨⟨text, ht, rfl⟩, rfl, rfl, rfl, rfl⟩

theorem main_usage_exit_witness :
    0 < ["prog", "/usr/bin/python3"].length ∧ ["prog", "/usr/bin/python3"].length < 3 ∧
    exitStatus (main (fun _ => ChildOutcome.exited 0) ["prog", "/usr/bin/python3"]).term
      = some (-1) ∧
    (main (fun _ => ChildOutcome.exited 0) ["prog", "/usr/bin/python3"]).spawned = [] :=
  ⟨by decide, by decide,
    (main_usage_exit (fun _ => ChildOutcome.exited 0) ["prog", "/usr/bin/python3"]
      (by decide) (by decide)).2.2.1,
    (main_usage_exit (fun _ => ChildOutcome.exited 0) ["prog", "/usr/bin/python3"]
      (by decide) (by decide)).2.2.2.1⟩

set_option maxRecDepth 100000 in
/-- C7: on the usage exit the printed text is the usage template with the program
name `args[0]` in exactly two places, the usage line
`    <prog> python_path module_path [options]` and the example line
`    <prog> /usr/bin/python3 base.cpu.lico_check_cpu --util`; everything else in
the text is constant. -/
theorem main_usage_text (os : Cmd → ChildOutcome) (args : List String)
    (h0 : 0 < args.length) (h : args.length < 3) :
    (main os args).stdout =
      ["\nUsage:\n"
        ++ ("    " ++ args[0] ++ " python_path module_path [options]")
        ++ "\n\n    python_path: Should specify an absolute path for python interpreter.\n    module_path: Should specify the module path.\n    options: Options for the specified module, refer to the module help.\n\nExample:\n"
        ++ ("    " ++ args[0] ++ " /usr/bin/python3 base.cpu.lico_check_cpu --util")
        ++ "\n"] := by
  obtain ⟨prog, rest, rfl, hr⟩ := exists_cons_short args h0 h
  obtain ⟨text, ht, hm⟩ := main_short os prog rest hr
  have hs : Sprintf usage [prog, prog] = some
      ("\nUsage:\n"
        ++ ("    " ++ (prog ++ (" python_path module_path [options]"
        ++ ("\n\n    python_path: Should specify an absolute path for python interpreter.\n    module_path: Should specify the module path.\n    options: Options for the specified module, refer to the module help.\n\nExample:\n"
        ++ ("    " ++ (prog ++ (" /usr/bin/python3 base.cpu.lico_check_cpu --util"
        ++ "\n")))))))) := by
    rfl
  rw [hs] at ht
  have ht2 := Option.some.inj ht
  rw [hm, ← ht2]
  simp only [List.getElem_cons_zero, String.append_assoc]

set_option maxRecDepth 100000 in
theorem main_usage_text_witness :
    0 < ["prog"].length ∧ ["prog"].length < 3 ∧
    (main (fun _ => ChildOutcome.exited 0) ["prog"]).stdout =
      ["\nUsage:\n    prog python_path module_path [options]\n\n    python_path: Should specify an absolute path for python interpreter.\n    module_path: Should specify the module path.\n    options: Options for the specified module, refer to the module help.\n\nExample:\n    prog /usr/bin/python3 base.cpu.lico_check_cpu --util\n"] :=
  ⟨by decide, by decide,
    main_usage_text (fun _ => ChildOutcome.exited 0) ["prog"] (by decide) (by decide)⟩

/-! ## After the child has run (C3, C4, C5, C8) -/

theorem main_of_Run_none (os : Cmd → ChildOutcome) (prog name module : String)
    (extra : List String)
    (h : Run os ⟨name, "-m" :: ("lico.monitor.plugins.icinga." ++ module) :: extra⟩ = none) :
    main os (prog :: name :: module :: extra) =
      ⟨[], [], [⟨name, "-m" :: ("lico.monitor.plugins.icinga." ++ module) :: extra⟩],
        .returned⟩ := by
  rw [main_long, h]

theorem main_of_Run_some (os : Cmd → ChildOutcome) (prog name module : String)
    (extra : List String) (err : String)
    (h : Run os ⟨name, "-m" :: ("lico.monitor.plugins.icinga." ++ module) :: extra⟩
      = some err) :
    main os (prog :: name :: module :: extra) =
      ⟨[], ["cmd.Run() failed with " ++ err ++ "\n"],
        [⟨name, "-m" :: ("lico.monitor.plugins.icinga." ++ module) :: extra⟩], .osExit 1⟩ := by
  rw [main_long, h]

/-- The method `cmd.Run()` returns an error exactly when the child did not exit
with status 0. -/
theorem Run_eq_none_iff (os : Cmd → ChildOutcome) (cmd : Cmd) :
    Run os cmd = none ↔ os cmd = .exited 0 := by
  unfold Run
  split <;> simp_all

theorem Run_exited_succ (os : Cmd → ChildOutcome) (cmd : Cmd) (n : Nat)
    (h : os cmd = .exited (n + 1)) :
    Run os cmd = some ("exit status " ++ toString (n + 1)) := by
  simp [Run, h]

/-- C3 (as amended): the launcher relays only whether the child succeeded.  For
every argument list with three or more elements and every exit status `c` of the
child, the exit status of the launcher is 0 when `c = 0` and 1 otherwise. -/
theorem main_exit_status_of_child (os : Cmd → ChildOutcome) (args : List String) (c : Nat)
    (h : 3 ≤ args.length)
    (hc : ∀ cmd ∈ (main os args).spawned, os cmd = .exited c) :
    exitStatus (main os args).term = some (if c = 0 then 0 else 1) := by
  obtain ⟨prog, name, module, extra, rfl⟩ := exists_cons3 args h
  have hos := hc _ (by rw [main_spawned]; exact List.mem_singleton.mpr rfl)
  cases c with
  | zero =>
    rw [main_of_Run_none os prog name module extra ((Run_eq_none_iff _ _).mpr hos)]
    rfl
  | succ n =>
    rw [main_of_Run_some os prog name module extra _ (Run_exited_succ _ _ n hos)]
    simp [exitStatus]

theorem main_exit_status_of_child_witness :
    3 ≤ ["prog", "/usr/bin/python3", "base.cpu.lico_check_cpu"].length ∧
    (∀ cmd ∈ (main (fun _ => ChildOutcome.exited 2)
        ["prog", "/usr/bin/python3", "base.cpu.lico_check_cpu"]).spawned,
      (fun _ => ChildOutcome.exited 2) cmd = ChildOutcome.exited 2) ∧
    exitStatus (main (fun _ => ChildOutcome.exited 2)
      ["prog", "/usr/bin/python3", "base.cpu.lico_check_cpu"]).term = some 1 :=
  ⟨by decide, fun _ _ => rfl,
    main_exit_status_of_child (fun _ => ChildOutcome.exited 2)
      ["prog", "/usr/bin/python3", "base.cpu.lico_check_cpu"] 2 (by decide) (fun _ _ => rfl)⟩

/-- C3 fails as stated: with the arguments
`["prog", "/usr/bin/python3", "base.cpu.lico_check_cpu"]` and a child that exits
with status 2, the launcher runs that child and exits with status 1, not 2. -/
theorem main_relay_exit_status_counterexample :
    3 ≤ ["prog", "/usr/bin/python3", "base.cpu.lico_check_cpu"].length ∧
    (main (fun _ => ChildOutcome.exited 2)
        ["prog", "/usr/bin/python3", "base.cpu.lico_check_cpu"]).spawned
      = [⟨"/usr/bin/python3", ["-m", "lico.monitor.plugins.icinga.base.cpu.lico_check_cpu"]⟩] ∧
    (fun _ => ChildOutcome.exited 2)
        (⟨"/usr/bin/python3", ["-m", "lico.monitor.plugins.icinga.base.cpu.lico_check_cpu"]⟩ : Cmd)
      = ChildOutcome.exited 2 ∧
    exitStatus (main (fun _ => ChildOutcome.exited 2)
      ["prog", "/usr/bin/python3", "base.cpu.lico_check_cpu"]).term = some 1 ∧
    exitStatus (main (fun _ => ChildOutcome.exited 2)
      ["prog", "/usr/bin/python3", "base.cpu.lico_check_cpu"]).term ≠ some ((2 : Nat) : Int) := by
  have hm := main_of_Run_some (fun _ => ChildOutcome.exited 2) "prog" "/usr/bin/python3"
    "base.cpu.lico_check_cpu" [] ("exit status " ++ toString 2) rfl
  refine ⟨by decide, ?_, rfl, ?_, ?_⟩
  · rw [hm]; simp
  · rw [hm]; rfl
  · rw [hm]; simp [exitStatus]

/-- C4: for every argument list with three or more elements, if the child cannot
be started (the executable does not exist or is not executable; `reason` is the
text of the error), `main` logs `cmd.Run() failed with <reason>` and a line break,
ends with `os.Exit(1)`, so with a non-zero status, and prints nothing (no usage
text) to standard output. -/
theorem main_child_not_started (os : Cmd → ChildOutcome) (args : List String)
    (reason : String) (h : 3 ≤ args.length)
    (hc : ∀ cmd ∈ (main os args).spawned, os cmd = .notStarted reason) :
    (main os args).logged = ["cmd.Run() failed with " ++ reason ++ "\n"]
      ∧ (main os args).term = .osExit 1
      ∧ exitStatus (main os args).term = some 1
      ∧ exitStatus (main os args).term ≠ some 0
      ∧ (main os args).stdout = [] := by
  obtain ⟨prog, name, module, extra, rfl⟩ := exists_cons3 args h
  have hos := hc _ (by rw [main_spawned]; exact List.mem_singleton.mpr rfl)
  rw [main_of_Run_some os prog name module extra reason (by simp [Run, hos])]
  simp [exitStatus]

theorem main_child_not_started_witness :
    3 ≤ ["prog", "/bad/path", "mod"].length ∧
    (∀ cmd ∈ (main (fun _ => ChildOutcome.notStarted
        "fork/exec /bad/path: no such file or directory") ["prog", "/bad/path", "mod"]).spawned,
      (fun _ => ChildOutcome.notStarted "fork/exec /bad/path: no such file or directory") cmd
        = ChildOutcome.notStarted "fork/exec /bad/path: no such file or directory") ∧
    (main (fun _ => ChildOutcome.notStarted "fork/exec /bad/path: no such file or directory")
        ["prog", "/bad/path", "mod"]).logged
      = ["cmd.Run() failed with fork/exec /bad/path: no such file or directory\n"] ∧
    (main (fun _ => ChildOutcome.notStarted "fork/exec /bad/path: no such file or directory")
        ["prog", "/bad/path", "mod"]).stdout = [] :=
  ⟨by decide, fun _ _ => rfl,
    (main_child_not_started
      (fun _ => ChildOutcome.notStarted "fork/exec /bad/path: no such file or directory")
      ["prog", "/bad/path", "mod"] "fork/exec /bad/path: no such file or directory"
      (by decide) (fun _ _ => rfl)).1,
    (main_child_not_started
      (fun _ => ChildOutcome.notStarted "fork/exec /bad/path: no such file or directory")
      ["prog", "/bad/path", "mod"] "fork/exec /bad/path: no such file or directory"
      (by decide) (fun _ _ => rfl)).2.2.2.2⟩

/-- C5: for every argument list with three or more elements, if the child exits
with status 0 (so `cmd.Run()` returns no error), `main` returns, the exit status of
the launcher is 0, and the launcher prints no usage text and logs no diagnostic. -/
theorem main_child_success (os : Cmd → ChildOutcome) (args : List String)
    (h : 3 ≤ args.length)
    (hc : ∀ cmd ∈ (main os args).spawned, os cmd = .exited 0) :
    (∀ cmd ∈ (main os args).spawned, Run os cmd = none)
      ∧ (main os args).term = .returned
      ∧ exitStatus (main os args).term = some 0
      ∧ (main os args).stdout = []
      ∧ (main os args).logged = [] := by
  refine ⟨fun cmd hcmd => (Run_eq_none_iff _ _).mpr (hc cmd hcmd), ?_⟩
  obtain ⟨prog, name, module, extra, rfl⟩ := exists_cons3 args h
  have hos := hc _ (by rw [main_spawned]; exact List.mem_singleton.mpr rfl)
  rw [main_of_Run_none os prog name module extra ((Run_eq_none_iff _ _).mpr hos)]
  exact ⟨rfl, rfl, rfl, rfl⟩

theorem main_child_success_witness :
    3 ≤ ["prog", "/usr/bin/python3", "base.cpu.lico_check_cpu", "--util"].length ∧
    (∀ cmd ∈ (main (fun _ => ChildOutcome.exited 0)
        ["prog", "/usr/bin/python3", "base.cpu.lico_check_cpu", "--util"]).spawned,
      (fun _ => ChildOutcome.exited 0) cmd = ChildOutcome.exited 0) ∧
    exitStatus (main (fun _ => ChildOutcome.exited 0)
      ["prog", "/usr/bin/python3", "base.cpu.lico_check_cpu", "--util"]).term = some 0 :=
  ⟨by decide, fun _ _ => rfl,
    (main_child_success (fun _ => ChildOutcome.exited 0)
      ["prog", "/usr/bin/python3", "base.cpu.lico_check_cpu", "--util"]
      (by decide) (fun _ _ => rfl)).2.2.1⟩

/-- C8: the launcher does not tell failures apart.  For every argument list with
three or more elements and any two errors `e₁`, `e₂` returned by `cmd.Run()` (the
child could not be started, or it ended with any non-zero status), both runs end
with `os.Exit(1)` after logging one diagnostic, with the same non-zero exit
status, the same command and nothing on standard output; the diagnostics are
`cmd.Run() failed with <e>` and a line break and differ only in the error text. -/
theorem main_fatal_uniform (os₁ os₂ : Cmd → ChildOutcome) (args : List String)
    (e₁ e₂ : String) (h : 3 ≤ args.length)
    (h₁ : ∀ cmd ∈ (main os₁ args).spawned, Run os₁ cmd = some e₁)
    (h₂ : ∀ cmd ∈ (main os₂ args).spawned, Run os₂ cmd = some e₂) :
    (main os₁ args).term = .osExit 1 ∧ (main os₂ args).term = .osExit 1
      ∧ exitStatus (main os₁ args).term = exitStatus (main os₂ args).term
      ∧ exitStatus (main os₁ args).term = some 1
      ∧ exitStatus (main os₁ args).term ≠ some 0
      ∧ (main os₁ args).logged = ["cmd.Run() failed with " ++ e₁ ++ "\n"]
      ∧ (main os₂ args).logged = ["cmd.Run() failed with " ++ e₂ ++ "\n"]
      ∧ (main os₁ args).stdout = [] ∧ (main os₂ args).stdout = []
      ∧ (main os₁ args).spawned = (main os₂ args).spawned := by
  obtain ⟨prog, name, module, extra, rfl⟩ := exists_cons3 args h
  have hr₁ := h₁ _ (by rw [main_spawned]; exact List.mem_singleton.mpr rfl)
  have hr₂ := h₂ _ (by rw [main_spawned]; exact List.mem_singleton.mpr rfl)
  rw [main_of_Run_some os₁ prog name module extra e₁ hr₁,
    main_of_Run_some os₂ prog name module extra e₂ hr₂]
  simp [exitStatus]

theorem main_fatal_uniform_witness :
    3 ≤ ["prog", "/bad/path", "mod"].length ∧
    (∀ cmd ∈ (main (fun _ => ChildOutcome.notStarted "permission denied")
        ["prog", "/bad/path", "mod"]).spawned,
      Run (fun _ => ChildOutcome.notStarted "permission denied") cmd
        = some "permission denied") ∧
    (∀ cmd ∈ (main (fun _ => ChildOutcome.exited 3) ["prog", "/bad/path", "mod"]).spawned,
      Run (fun _ => ChildOutcome.exited 3) cmd = some "exit status 3") ∧
    exitStatus (main (fun _ => ChildOutcome.notStarted "permission denied")
        ["prog", "/bad/path", "mod"]).term
      = exitStatus (main (fun _ => ChildOutcome.exited 3) ["prog", "/bad/path", "mod"]).term :=
  ⟨by decide, fun _ _ => rfl, fun _ _ => rfl,
    (main_fatal_uniform (fun _ => ChildOutcome.notStarted "permission denied")
      (fun _ => ChildOutcome.exited 3) ["prog", "/bad/path", "mod"]
      "permission denied" "exit status 3" (by decide) (fun _ _ => rfl)
      (fun _ _ => rfl)).2.2.1⟩

/-! ## Index safety and the three outcomes (C9) -/

/-- The three outcomes, on a list with three or more elements: never the usage exit,
and the fatal or the normal exit according to the result of `cmd.Run()`. -/
theorem main_long_outcome (os : Cmd → ChildOutcome) (prog name module : String)
    (extra : List String) :
    ¬ (main os (prog :: name :: module :: extra)).isUsageExit ∧
    (((main os (prog :: name :: module :: extra)).isFatalExit ∧
        ¬ (main os (prog :: name :: module :: extra)).isNormalExit) ∨
      (¬ (main os (prog :: name :: module :: extra)).isFatalExit ∧
        (main os (prog :: name :: module :: extra)).isNormalExit)) := by
  rw [main_long]
  cases Run os ⟨name, "-m" :: ("lico.monitor.plugins.icinga." ++ module) :: extra⟩ <;>
    simp [Execution.isUsageExit, Execution.isFatalExit, Execution.isNormalExit]

/-- C9: for every non-empty argument list every index and slice access of `main` is
in bounds: `args[0]` exists; `args[1]`, `args[2]` and `args[3:]` exist when the list
has three or more elements (`args[3:]` is empty when it has exactly three), and
with fewer than three elements `main` ends at the usage exit before them.  So
`main` never ends with an index failure, and it ends in exactly one of the usage
exit, the fatal exit and the normal exit. -/
theorem main_in_bounds (os : Cmd → ChildOutcome) (args : List String) (h : args ≠ []) :
    args[0]? ≠ none
      ∧ (3 ≤ args.length → args[1]? ≠ none ∧ args[2]? ≠ none ∧ sliceFrom args 3 ≠ none)
      ∧ (args.length = 3 → sliceFrom args 3 = some [])
      ∧ ((main os args).isUsageExit ↔ args.length < 3)
      ∧ (main os args).term ≠ .indexPanic
      ∧ (((main os args).isUsageExit ∧ ¬ (main os args).isFatalExit
            ∧ ¬ (main os args).isNormalExit)
        ∨ (¬ (main os args).isUsageExit ∧ (main os args).isFatalExit
            ∧ ¬ (main os args).isNormalExit)
        ∨ (¬ (main os args).isUsageExit ∧ ¬ (main os args).isFatalExit
            ∧ (main os args).isNormalExit)) := by
  have hpos : 0 < args.length := List.length_pos.mpr h
  refine ⟨?_, ?_, ?_, ?_⟩
  · simp only [ne_eq, List.getElem?_eq_none_iff, not_le]
    exact hpos
  · intro h3
    refine ⟨?_, ?_, ?_⟩
    · simp only [ne_eq, List.getElem?_eq_none_iff, not_le]; omega
    · simp only [ne_eq, List.getElem?_eq_none_iff, not_le]; omega
    · simp [sliceFrom, h3]
  · intro h3
    simp [sliceFrom, h3]
  · by_cases hlt : args.length < 3
    · obtain ⟨prog, rest, rfl, hr⟩ := exists_cons_short args hpos hlt
      obtain ⟨text, -, hm⟩ := main_short os prog rest hr
      rw [hm]
      simp [Execution.isUsageExit, Execution.isFatalExit, Execution.isNormalExit]
      omega
    · obtain ⟨prog, name, module, extra, rfl⟩ := exists_cons3 args (by omega)
      obtain ⟨hu, ho⟩ := main_long_outcome os prog name module extra
      refine ⟨⟨fun hu2 => absurd hu2 hu, fun h2 => absurd h2 hlt⟩, ?_, ?_⟩
      · rcases ho with ⟨hf, -⟩ | ⟨-, hn⟩
        · rw [hf.1]; simp
        · rw [hn.1]; simp
      · rcases ho with ⟨hf, hn⟩ | ⟨hf, hn⟩
        · exact Or.inr (Or.inl ⟨hu, hf, hn⟩)
        · exact Or.inr (Or.inr ⟨hu, hf, hn⟩)

theorem main_in_bounds_witness :
    ["prog", "/usr/bin/python3", "base.cpu.lico_check_cpu"] ≠ [] ∧
    sliceFrom ["prog", "/usr/bin/python3", "base.cpu.lico_check_cpu"] 3 = some [] ∧
    (main (fun _ => ChildOutcome.exited 0)
      ["prog", "/usr/bin/python3", "base.cpu.lico_check_cpu"]).term ≠ Termination.indexPanic :=
  ⟨by decide,
    (main_in_bounds (fun _ => ChildOutcome.exited 0)
      ["prog", "/usr/bin/python3", "base.cpu.lico_check_cpu"] (by decide)).2.2.1 (by decide),
    (main_in_bounds (fun _ => ChildOutcome.exited 0)
      ["prog", "/usr/bin/python3", "base.cpu.lico_check_cpu"] (by decide)).2.2.2.2.1⟩

end LicoSetCap
